import Mathlib

/-
  Verification development for the Carousell lowballer agent
  (sources: lowballer.py, controller.py, dom_parser.py, config.py).

  The Python code is shallowly embedded: pure computations become Lean
  functions over ℚ / ℤ / String; the stateful negotiation engine becomes
  explicit state passing over a ChatRecord; external nondeterminism
  (the LLM provider, the random jitter, page scraping, the clock, send
  success) is passed in as explicit inputs.  Python str operations are
  modelled over the underlying character list so that every definition
  evaluates inside the kernel.
-/

namespace Cheapskate

/- ============================================================
   Python string primitives
   ============================================================ -/

/-- Python str.strip() with no argument: drop whitespace from both ends. -/
def pyStrip (s : String) : String :=
  ⟨((s.data.dropWhile Char.isWhitespace).reverse.dropWhile Char.isWhitespace).reverse⟩

/-- Python str.upper(). -/
def pyUpper (s : String) : String := ⟨s.data.map Char.toUpper⟩

/-- Whether the first list is an initial segment of the second. -/
def startsWithChars : List Char → List Char → Bool
  | [], _ => true
  | _ :: _, [] => false
  | a :: as, b :: bs => a == b && startsWithChars as bs

/-- Whether the pattern occurs contiguously inside the list. -/
def occursIn (pat : List Char) : List Char → Bool
  | [] => pat.isEmpty
  | c :: t => startsWithChars pat (c :: t) || occursIn pat t

/-- Python substring membership: pat in s. -/
def strContains (s pat : String) : Bool := occursIn pat.data s.data

/-- Python slicing s[:n]. -/
def strTake (s : String) (n : ℕ) : String := ⟨s.data.take n⟩

/-- Python str.strip of the quote characters, as in
message.strip of the two quote characters (lowballer.py line 391). -/
def isQuoteChar (c : Char) : Bool := c == '"' || c == '\x27'

/-- Strip leading and trailing quote characters from a string. -/
def stripQuotes (s : String) : String :=
  ⟨((s.data.dropWhile isQuoteChar).reverse.dropWhile isQuoteChar).reverse⟩

/- ============================================================
   Offer calculation (lowballer.py lines 131-196, config.py line 25)
   ============================================================ -/

/-- Python int() truncation toward zero, applied to a rational value. -/
def pyInt (q : ℚ) : ℤ := if 0 ≤ q then q.floor else -((-q).floor)

/-- The jitter pool of lowballer.py line 193:
random.choice([-3, -7, +2, +8, -2, +3]). -/
def offsets : List ℤ := [-3, -7, 2, 8, -2, 3]

/-- The Ackerman percentage schedule, lowballer.py lines 132-137:
self.ackerman_percentages = \x7b1: 65, 2: 85, 3: 95, 4: 100\x7d looked up
with .get(round_num, 100). -/
def ackermanPercent : ℕ → ℕ
  | 1 => 65
  | 2 => 85
  | 3 => 95
  | _ => 100

/-- Default round budget, config.py line 25: max_negotiation_rounds = 5.
The value is stored on the agent as self.max_rounds (lowballer.py
line 138) but never read anywhere else in the repository. -/
def max_negotiation_rounds : ℕ := 5

/-- LowballerAgent.calculate_offer (lowballer.py lines 165-196) with the
random offset made an explicit argument:
percent = ackerman_percentages.get(round_num, 100);
base_offer = listing_price * (percent / 100);
precise_offer = int(base_offer) + offset; return max(precise_offer, 1). -/
def calculate_offer (listing_price : ℚ) (round_num : ℕ) (offset : ℤ) : ℤ :=
  let percent := ackermanPercent round_num
  let base_offer := listing_price * ((percent : ℚ) / 100)
  let precise_offer := pyInt base_offer + offset
  max precise_offer 1

/- ============================================================
   Listings (dom_parser.py, controller.py)
   ============================================================ -/

/-- A scraped marketplace listing; the dict keys used by the code
become typed fields. -/
structure Listing where
  title : String
  price : ℚ
  seller_name : String
  listing_url : String
  description : String := ""
deriving DecidableEq, Repr

/-- Placeholder listing used to model Python indexing (an in-range
index never produces it). -/
def defaultListing : Listing :=
  { title := "", price := 0, seller_name := "", listing_url := "" }

/-- dom_parser.filter_listings_by_price (lines 260-273):
[l for l in listings if 0 < l.get("price", 0) <= max_price]. -/
def filter_listings_by_price (listings : List Listing) (max_price : ℚ) : List Listing :=
  listings.filter (fun l => decide (0 < l.price) && decide (l.price ≤ max_price))

/- ============================================================
   Negotiation engine state (lowballer.py)
   ============================================================ -/

/-- One scraped chat message: the role/content pair produced by the
page.evaluate script in sync_conversation (lowballer.py lines 531-555). -/
structure ScrapedMsg where
  role : String
  content : String
deriving DecidableEq, Repr

/-- Extra dict keys carried by a stored message: synced messages carry
synced=True (lowballer.py lines 576-581); buyer messages appended by
negotiate() carry offer_price/round/sent (lines 272-279). -/
inductive MsgMeta where
  | plain
  | synced
  | offerMsg (offer_price : Option ℤ) (round : ℕ) (sent : Bool)
deriving DecidableEq, Repr

/-- One stored chat message. -/
structure Message where
  role : String
  content : String
  timestamp : String
  meta : MsgMeta := .plain
deriving DecidableEq, Repr

/-- One per-seller conversation record, the value stored in
self.chat_history[seller_id] (lowballer.py lines 519-526). -/
structure ChatRecord where
  listing : Listing
  started_at : String
  messages : List Message
  current_round : ℕ
  status : String
  final_price : Option ℚ := none
deriving DecidableEq, Repr

/-- LowballerAgent.get_seller_id (lowballer.py lines 161-163):
seller_name + "_" + title[:20]. -/
def get_seller_id (listing_data : Listing) : String :=
  listing_data.seller_name ++ "_" ++ strTake listing_data.title 20

/-- The fresh record created by sync_conversation when the seller id is
unknown (lowballer.py lines 519-526). -/
def mk_new_record (listing_data : Listing) (now : String) : ChatRecord :=
  { listing := listing_data
    started_at := now
    messages := []
    current_round := 0
    status := "active" }

/-- Exact role+content membership test used by the reconciliation loop
(lowballer.py lines 568-572). -/
def containsMsg (hist : List Message) (role content : String) : Bool :=
  hist.any (fun m => m.role == role && m.content == content)

/-- The reconciliation loop of sync_conversation (lowballer.py lines
565-584): walk the scraped messages in order, append each pair not yet
present (compared by exact role+content against the history as it
grows), and collect appended seller messages as the new messages. -/
def syncMessages (hist : List Message) (scraped : List ScrapedMsg) (now : String) :
    List Message × List Message :=
  match scraped with
  | [] => (hist, [])
  | s :: rest =>
    if containsMsg hist s.role s.content then
      syncMessages hist rest now
    else
      let entry : Message := { role := s.role, content := s.content, timestamp := now, meta := .synced }
      let result := syncMessages (hist ++ [entry]) rest now
      (result.fst, if s.role == "seller" then entry :: result.snd else result.snd)

/-- Count of buyer-authored messages, lowballer.py line 587:
len([m for m in existing_history if m["role"] == "lowballer"]). -/
def countLowballer (msgs : List Message) : ℕ :=
  (msgs.filter (fun m => m.role == "lowballer")).length

/-- LowballerAgent.sync_conversation (lowballer.py lines 507-591) for
one seller: page is None (return immediately, no record created) or
the list of scraped role/content pairs; stored is the existing record.
Returns the record state and the list of new seller messages.  Note
the empty-scrape early return at lines 557-558 happens after the
record is created but before current_round is recomputed. -/
def sync_conversation (listing_data : Listing) (page : Option (List ScrapedMsg))
    (now : String) (stored : Option ChatRecord) : Option ChatRecord × List Message :=
  match page with
  | none => (stored, [])
  | some scraped =>
    let rec0 := stored.getD (mk_new_record listing_data now)
    if scraped.isEmpty then
      (some rec0, [])
    else
      let synced := syncMessages rec0.messages scraped now
      let rec1 := { rec0 with
        messages := synced.fst
        current_round := countLowballer synced.fst }
      (some rec1, synced.snd)

/- ============================================================
   LLM classification, message generation, fallbacks (lowballer.py)
   ============================================================ -/

/-- LowballerAgent.analyze_seller_response (lowballer.py lines 288-330),
with the provider call made explicit: none models a raised exception,
some content models response.get("content", "").  The code takes
result = content.strip().upper() and tests substring membership of
ACCEPT then REJECT, defaulting to COUNTER; a raised exception also
defaults to COUNTER. -/
def analyze_seller_response (llmResponse : Option String) : String :=
  match llmResponse with
  | none => "COUNTER"
  | some content =>
    let result := pyUpper (pyStrip content)
    if strContains result "ACCEPT" then "ACCEPT"
    else if strContains result "REJECT" then "REJECT"
    else "COUNTER"

/-- A completion-provider reply for message generation: the content
string and the truthiness of response.get("error"). -/
structure LLMResp where
  content : String
  error : Bool := false
deriving DecidableEq, Repr

/-- Rendering of the offer price into the f-string templates: Python
prints None for a missing offer. -/
def offerToStr : Option ℤ → String
  | some z => toString z
  | none => "None"

/-- The round-keyed fallback template pools of
LowballerAgent.get_fallback_message (lowballer.py lines 410-438),
parameterized by the item name and the printed offer price; the dict
lookup fallbacks.get(round_num, fallbacks[5]) becomes the wildcard
branch. -/
def fallbackPool (item_name offerStr : String) : ℕ → List String
  | 1 =>
    [ "Hi! I know this is below asking, but seen similar " ++ item_name ++ "s around $" ++ offerStr ++ ". Cash ready, can pickup today!",
      "Hey! Love the " ++ item_name ++ ". I know $" ++ offerStr ++ " is low but that\x27s my budget - can do cash and immediate pickup?",
      "Hi there! $" ++ offerStr ++ " might be cheeky but I\x27m serious buyer with cash. How can we make this work?" ]
  | 2 =>
    [ "Firm? I understand. Would $" ++ offerStr ++ " work if I pickup within the hour? Cash in hand.",
      "I hear you. Can stretch to $" ++ offerStr ++ " - I\x27ll come to you anytime today, cash ready.",
      "Got it. How about $" ++ offerStr ++ " with immediate collection? Trying to make it easy for you." ]
  | 3 =>
    [ "It seems like you want this sold quickly - $" ++ offerStr ++ " cash and I\x27m free right now to collect?",
      "Sounds like you\x27ve had lowballers before, but $" ++ offerStr ++ " is genuine. Can meet in 30 mins!",
      "$" ++ offerStr ++ " is really my max lah. Can do cash and pickup today if that helps?" ]
  | 4 =>
    [ "You probably have better offers coming in, but $" ++ offerStr ++ " cash today is my best. Serious buyer here.",
      "I know $" ++ offerStr ++ " might not be what you hoped for, but I\x27m ready to deal now. What do you think?",
      "You\x27re probably thinking this is too low - $" ++ offerStr ++ " is genuinely my limit though. Cash ready!" ]
  | _ =>
    [ "I totally understand if $" ++ offerStr ++ " doesn\x27t work for you. Good luck with the sale!",
      "$" ++ offerStr ++ " is really my final offer. No worries if it doesn\x27t work - all the best!",
      "Can only do $" ++ offerStr ++ " max. If not, no hard feelings - hope you find a buyer soon!" ]

/-- LowballerAgent.get_fallback_message (lowballer.py lines 399-439):
random.choice over the round's pool, with the random draw modelled as
an arbitrary natural number taken modulo the pool size. -/
def get_fallback_message (item_name : String) (offer_price : Option ℤ)
    (round_num choice : ℕ) : String :=
  let options := fallbackPool item_name (offerToStr offer_price) round_num
  options.getD (choice % options.length) ""

/-- LowballerAgent.generate_message (lowballer.py lines 332-397) with
the provider call explicit: none models a raised exception.  An empty
stripped content or a truthy error field raises, and any raise is
caught and routed to the fallback pool; otherwise surrounding quote
characters are stripped from the reply. -/
def generate_message (llmResponse : Option LLMResp) (item_name : String)
    (offer_price : Option ℤ) (round_num choice : ℕ) : String :=
  match llmResponse with
  | none => get_fallback_message item_name offer_price round_num choice
  | some resp =>
    let message := pyStrip resp.content
    if message == "" || resp.error then
      get_fallback_message item_name offer_price round_num choice
    else
      stripQuotes message

/- ============================================================
   negotiate (lowballer.py lines 198-286)
   ============================================================ -/

/-- The explicit inputs consumed by one negotiate() call: the page (None
or its scraped chat), the classification and generation provider
replies, the random fallback draw, the random jitter offset, whether
the chat-input send succeeds, and the current timestamp. -/
structure NegotiateEnv where
  page : Option (List ScrapedMsg)
  analysisResponse : Option String
  genResponse : Option LLMResp
  fallbackChoice : ℕ
  offset : ℤ
  sendOk : Bool
  now : String

/-- LowballerAgent.negotiate (lowballer.py lines 198-286).  The record
for this seller is passed in and the updated record passed out; a
Python KeyError (self.chat_history[seller_id] with no such key,
line 225) becomes the error case.  Statuses mirror the code: the
ACCEPT classification path returns before any message is generated;
otherwise an offer is computed when listing_price > 100 (effective
round capped at 4), a message is generated (falling back on provider
failure), the send succeeds only when a page is present, and the buyer
message is appended with current_round incremented.  No walk-away
check exists anywhere in the source: self.max_rounds is never read. -/
def negotiate (listing_data : Listing) (env : NegotiateEnv)
    (initial_message : Option String) (stored : Option ChatRecord) :
    Except String (String × ChatRecord) :=
  let seller_id := get_seller_id listing_data
  let listing_price := listing_data.price
  let item_name := listing_data.title
  match (sync_conversation listing_data env.page env.now stored).fst with
  | none => .error ("KeyError: " ++ seller_id)
  | some chat =>
    let current_round := chat.current_round + 1
    let seller_messages := chat.messages.filter (fun m => m.role == "seller")
    if !seller_messages.isEmpty && analyze_seller_response env.analysisResponse == "ACCEPT" then
      let chat2 := { chat with status := "accepted" }
      .ok ("LOWBALLER: 🎉 DEAL ACCEPTED! Seller agreed. Confirmation sent.", chat2)
    else
      let offer_price : Option ℤ :=
        if 100 < listing_price then
          some (calculate_offer listing_price (min current_round 4) env.offset)
        else
          none
      let message :=
        match initial_message with
        | some m => m
        | none => generate_message env.genResponse item_name offer_price current_round env.fallbackChoice
      let sent := env.page.isSome && env.sendOk
      let chat2 := { chat with
        messages := chat.messages ++
          [{ role := "lowballer", content := message, timestamp := env.now,
             meta := .offerMsg offer_price current_round sent }]
        current_round := current_round }
      if sent then
        .ok ("LOWBALLER: Sent message for " ++ item_name ++ " (Round " ++ toString current_round ++ ")", chat2)
      else
        .ok ("LOWBALLER: Generated message for " ++ item_name ++ " (chat input not found)", chat2)

/- ============================================================
   Controller dispatcher (controller.py)
   ============================================================ -/

/-- One tool call returned by the provider: a tool name and opaque
arguments. -/
structure ToolCall where
  name : String
  arguments : String
deriving DecidableEq, Repr

/-- Outcome of running one handler on the shared state: a returned
string or a raised exception; Python mutations made before a raise
persist, so both constructors carry the state. -/
inductive HandlerOutcome (σ : Type u) where
  | ok (result : String) (state : σ)
  | raise (error : String) (state : σ)

/-- One iteration of the loop in ControllerAgent.execute_tool_calls
(controller.py lines 266-280): look the handler up, run it, convert the
outcome to a line, or report an unknown tool. -/
def renderToolCall {σ : Type u} (handlers : String → Option (String → σ → HandlerOutcome σ))
    (tc : ToolCall) (s : σ) : String × σ :=
  match handlers tc.name with
  | some h =>
    match h tc.arguments s with
    | .ok result s2 => ("✓ " ++ tc.name ++ ": " ++ result, s2)
    | .raise e s2 => ("✗ " ++ tc.name ++ ": Error - " ++ e, s2)
  | none => ("✗ Unknown tool: " ++ tc.name, s)

/-- ControllerAgent.execute_tool_calls (controller.py lines 262-290):
run every tool call in order, threading the shared state, collecting
one outcome line per call. -/
def execute_tool_calls {σ : Type u} (tool_calls : List ToolCall)
    (handlers : String → Option (String → σ → HandlerOutcome σ)) (s : σ) :
    List String × σ :=
  match tool_calls with
  | [] => ([], s)
  | tc :: rest =>
    let step := renderToolCall handlers tc s
    let restResult := execute_tool_calls rest handlers step.snd
    (step.fst :: restResult.fst, restResult.snd)

/-- The joined result string, controller.py line 282. -/
def combined_result (lines : List String) : String := String.intercalate "\n" lines

/-- ControllerAgent.handle_open_listing (controller.py lines 684-706):
empty-cache message, index validation, then navigation whose success is
an explicit input.  Returns the outcome string and the (never mutated)
listings list. -/
def handle_open_listing (current_listings : List Listing) (listing_index : ℤ)
    (navOk : Bool) : String × List Listing :=
  if current_listings.isEmpty then
    ("No listings available. Search first.", current_listings)
  else if listing_index < 0 || (current_listings.length : ℤ) ≤ listing_index then
    ("Invalid listing index. Valid range: 0-" ++ toString (current_listings.length - 1),
      current_listings)
  else
    let listing := current_listings.getD listing_index.toNat defaultListing
    if listing.listing_url == "" then
      ("No URL available for listing " ++ toString listing_index, current_listings)
    else if navOk then
      ("Opened listing: " ++ listing.title ++ " ($" ++ toString listing.price ++ ")",
        current_listings)
    else
      ("Failed to open listing " ++ toString listing_index, current_listings)

/-- ControllerAgent.handle_open_chat (controller.py lines 708-749):
empty-cache message, index validation, page-readiness check, then the
chat-button click strategies whose joint success is an explicit input. -/
def handle_open_chat (current_listings : List Listing) (listing_index : ℤ)
    (pageReady chatClicked : Bool) : String × List Listing :=
  if current_listings.isEmpty then
    ("No listings available. Search first.", current_listings)
  else if listing_index < 0 || (current_listings.length : ℤ) ≤ listing_index then
    ("Invalid listing index. Valid range: 0-" ++ toString (current_listings.length - 1),
      current_listings)
  else
    let listing := current_listings.getD listing_index.toNat defaultListing
    if !pageReady then
      ("Browser not ready", current_listings)
    else if chatClicked then
      ("Opened chat for: " ++ listing.title, current_listings)
    else
      ("Could not find chat button for listing " ++ toString listing_index ++
        ". You may need to login first.", current_listings)

/-- ControllerAgent.handle_delegate_lowball (controller.py lines
751-883): empty-cache message, index validation, page-readiness check,
navigation, in-place enrichment of the addressed listing with the
extracted description, the chat-open strategies, then delegation to
negotiate().  A KeyError escaping negotiate() escapes the handler
(it is caught only at the dispatcher boundary), hence the Except. -/
def handle_delegate_lowball (current_listings : List Listing) (listing_index : ℤ)
    (pageReady navOk chatOpened : Bool) (extracted_description : String)
    (env : NegotiateEnv) (stored : Option ChatRecord) :
    Except String (String × List Listing) :=
  if current_listings.isEmpty then
    .ok ("No listings available. Search first.", current_listings)
  else if listing_index < 0 || (current_listings.length : ℤ) ≤ listing_index then
    .ok ("Invalid listing index. Valid range: 0-" ++ toString (current_listings.length - 1),
      current_listings)
  else
    let listing := current_listings.getD listing_index.toNat defaultListing
    if !pageReady then
      .ok ("Browser not ready", current_listings)
    else if listing.listing_url != "" && !navOk then
      .ok ("Failed to navigate to listing URL: " ++ listing.listing_url, current_listings)
    else
      let updated :=
        if listing.listing_url != "" then { listing with description := extracted_description }
        else listing
      let listings2 :=
        if listing.listing_url != "" then current_listings.set listing_index.toNat updated
        else current_listings
      if !chatOpened then
        .ok ("Could not find chat button on listing page. Please check the screenshot.", listings2)
      else
        match negotiate updated env none stored with
        | .ok (result, _) => .ok (result, listings2)
        | .error e => .error e

end Cheapskate

namespace Cheapskate

/- ============================================================
   Helper lemmas
   ============================================================ -/

/-- On nonnegative arguments, Python truncation agrees with the floor. -/
theorem pyInt_eq_floor (q : ℚ) (h : 0 ≤ q) : pyInt q = ⌊q⌋ := by
  unfold pyInt
  rw [if_pos h]
  rfl

/-- Every jitter offset in the pool lies between -7 and 8. -/
theorem offsets_bounds {o : ℤ} (h : o ∈ offsets) : -7 ≤ o ∧ o ≤ 8 := by
  fin_cases h <;> omega

/-- The Ackerman percentage is one of the four schedule tiers. -/
theorem ackermanPercent_cases (r : ℕ) :
    ackermanPercent r = 65 ∨ ackermanPercent r = 85 ∨
    ackermanPercent r = 95 ∨ ackermanPercent r = 100 := by
  rcases r with _ | _ | _ | _ | r <;> simp [ackermanPercent]

/-- Jittered floors separated by a gap of 16 stay ordered for any pair
of pool offsets. -/
theorem floor_jitter_mono {x y : ℚ} (hx : 0 ≤ x) (hy : 0 ≤ y) (hgap : x + 16 ≤ y)
    {o1 o2 : ℤ} (h1 : o1 ≤ 8) (h2 : -7 ≤ o2) :
    max (pyInt x + o1) 1 ≤ max (pyInt y + o2) 1 := by
  have hfx := Int.floor_le x
  have hfy : (⌊x⌋ : ℤ) + 15 ≤ ⌊y⌋ := by
    apply Int.le_floor.mpr
    push_cast
    linarith
  rw [pyInt_eq_floor x hx, pyInt_eq_floor y hy]
  apply max_le_max _ le_rfl
  omega

/- ============================================================
   C8
   ============================================================ -/

/-- C8: for every listing price, round number, and additive jitter
offset, the offer returned by calculate_offer is at least 1 unit of
currency (the source clamps with max(precise_offer, 1)). -/
theorem c8_offer_at_least_one (listing_price : ℚ) (round_num : ℕ) (offset : ℤ) :
    1 ≤ calculate_offer listing_price round_num offset := by
  unfold calculate_offer
  exact le_max_right _ _

/- ============================================================
   C9
   ============================================================ -/

/-- Five mock listings priced 1200, 650, 400, 580, 350 (spec section 8). -/
def mockListings : List Listing :=
  [ { title := "A", price := 1200, seller_name := "s1", listing_url := "u1" },
    { title := "B", price := 650, seller_name := "s2", listing_url := "u2" },
    { title := "C", price := 400, seller_name := "s3", listing_url := "u3" },
    { title := "D", price := 580, seller_name := "s4", listing_url := "u4" },
    { title := "E", price := 350, seller_name := "s5", listing_url := "u5" } ]

/-- C9: filter_listings_by_price with max_price = 600 over the five mock
listings priced 1200, 650, 400, 580, 350 returns exactly the three
listings priced at most 600, in their original relative order. -/
theorem c9_filter_price_600 :
    filter_listings_by_price mockListings 600 =
      [ { title := "C", price := 400, seller_name := "s3", listing_url := "u3" },
        { title := "D", price := 580, seller_name := "s4", listing_url := "u4" },
        { title := "E", price := 350, seller_name := "s5", listing_url := "u5" } ] := by
  decide

/- ============================================================
   C3
   ============================================================ -/

/-- C3 counterexample: the jitter +8 is in the random pool, and at the
100 percent tier (round 4) on listing price 800 the computed offer is
808, which is not strictly below the listing price — refuting the claim
that the offer is strictly between 0 and the listing price at every
round. -/
theorem c3_counterexample :
    (8 : ℤ) ∈ offsets ∧ calculate_offer 800 4 8 = 808 ∧
    ¬ ((calculate_offer 800 4 8 : ℚ) < 800) := by
  have h : calculate_offer 800 4 8 = 808 := by
    show max (pyInt ((800 : ℚ) * ((ackermanPercent 4 : ℚ) / 100)) + 8) 1 = 808
    have e1 : ((800 : ℚ) * ((ackermanPercent 4 : ℚ) / 100)) = 800 := by
      norm_num [ackermanPercent]
    rw [e1, pyInt_eq_floor _ (by norm_num)]
    norm_num
  refine ⟨by decide, h, ?_⟩
  rw [h]
  push_cast
  norm_num

/-- C3 amended: for every listing price p > 0 and every round, the offer
is at least 1 and at most floor(p) + 8 — at the 100 percent tier the
positive jitter can push it up to 8 above the listing price, so it is
not strictly below p; for p at least 320 the offer is monotonically
non-decreasing across the schedule under every choice of jitter
offsets; and every round beyond the schedule length yields exactly the
final (100 percent) tier offer at the same jitter. -/
theorem c3_amended (p : ℚ) (hp : 0 < p) (r : ℕ) (off1 off2 : ℤ)
    (h1 : off1 ∈ offsets) (h2 : off2 ∈ offsets) :
    1 ≤ calculate_offer p r off1 ∧
    calculate_offer p r off1 ≤ ⌊p⌋ + 8 ∧
    (320 ≤ p → 1 ≤ r → r ≤ 3 → calculate_offer p r off1 ≤ calculate_offer p (r + 1) off2) ∧
    (5 ≤ r → calculate_offer p r off1 = calculate_offer p 4 off1) := by
  obtain ⟨h1l, h1u⟩ := offsets_bounds h1
  obtain ⟨h2l, h2u⟩ := offsets_bounds h2
  refine ⟨le_max_right _ _, ?_, ?_, ?_⟩
  · -- upper bound
    show max (pyInt (p * ((ackermanPercent r : ℚ) / 100)) + off1) 1 ≤ ⌊p⌋ + 8
    have hbase : (0 : ℚ) ≤ p * ((ackermanPercent r : ℚ) / 100) := by positivity
    have hperc : (ackermanPercent r : ℚ) ≤ 100 := by
      rcases ackermanPercent_cases r with h | h | h | h <;> rw [h] <;> norm_num
    have hle : p * ((ackermanPercent r : ℚ) / 100) ≤ p := by
      nlinarith
    have hfloor : ⌊p * ((ackermanPercent r : ℚ) / 100)⌋ ≤ ⌊p⌋ := Int.floor_le_floor hle
    have hpf : (0 : ℤ) ≤ ⌊p⌋ := Int.floor_nonneg.mpr hp.le
    rw [pyInt_eq_floor _ hbase]
    apply max_le (by omega) (by omega)
  · -- monotone escalation for p ≥ 320
    intro hp320 hr1 hr3
    show max (pyInt (p * ((ackermanPercent r : ℚ) / 100)) + off1) 1 ≤
      max (pyInt (p * ((ackermanPercent (r + 1) : ℚ) / 100)) + off2) 1
    interval_cases r <;>
      · apply floor_jitter_mono (by positivity) (by positivity) _ h1u h2l
        simp only [ackermanPercent]
        push_cast
        linarith
  · -- tail equals the final tier
    intro hr5
    obtain ⟨n, rfl⟩ : ∃ n, r = n + 5 := ⟨r - 5, by omega⟩
    rfl

end Cheapskate

namespace Cheapskate

/- ============================================================
   Reconciliation lemmas (sync_conversation)
   ============================================================ -/

/-- The reconciliation loop only ever appends to the stored history. -/
theorem syncMessages_fst_append (scraped : List ScrapedMsg) (hist : List Message)
    (now : String) : ∃ tail, (syncMessages hist scraped now).fst = hist ++ tail := by
  induction scraped generalizing hist with
  | nil => exact ⟨[], by simp [syncMessages]⟩
  | cons s rest ih =>
    by_cases h : containsMsg hist s.role s.content = true
    · obtain ⟨t, ht⟩ := ih hist
      exact ⟨t, by simp [syncMessages, h, ht]⟩
    · obtain ⟨t, ht⟩ :=
        ih (hist ++ [{ role := s.role, content := s.content, timestamp := now, meta := .synced }])
      refine ⟨{ role := s.role, content := s.content, timestamp := now, meta := .synced } :: t, ?_⟩
      simp only [syncMessages, h, if_false, Bool.false_eq_true]
      rw [ht]
      simp

/-- Role+content membership survives appending more history. -/
theorem containsMsg_append_mono {hist : List Message} {role content : String}
    (h : containsMsg hist role content = true) (tail : List Message) :
    containsMsg (hist ++ tail) role content = true := by
  simp only [containsMsg, List.any_append, Bool.or_eq_true]
  exact Or.inl h

/-- A freshly appended entry is found by the membership test. -/
theorem containsMsg_last (hist : List Message) (e : Message) :
    containsMsg (hist ++ [e]) e.role e.content = true := by
  simp [containsMsg, List.any_append]

/-- After reconciliation, every scraped role/content pair is present in
the resulting history. -/
theorem syncMessages_covers (scraped : List ScrapedMsg) (hist : List Message)
    (now : String) :
    ∀ s ∈ scraped, containsMsg (syncMessages hist scraped now).fst s.role s.content = true := by
  induction scraped generalizing hist with
  | nil => intro s hs; simp at hs
  | cons a rest ih =>
    intro s hs
    by_cases h : containsMsg hist a.role a.content = true
    · rcases List.mem_cons.mp hs with rfl | hs
      · simp only [syncMessages, h, if_true]
        obtain ⟨t, ht⟩ := syncMessages_fst_append rest hist now
        rw [ht]
        exact containsMsg_append_mono h t
      · simp only [syncMessages, h, if_true]
        exact ih hist s hs
    · simp only [syncMessages, h, if_false, Bool.false_eq_true]
      rcases List.mem_cons.mp hs with rfl | hs
      · obtain ⟨t, ht⟩ := syncMessages_fst_append rest
          (hist ++ [{ role := s.role, content := s.content, timestamp := now, meta := .synced }]) now
        rw [ht]
        have := containsMsg_last hist
          { role := s.role, content := s.content, timestamp := now, meta := .synced }
        exact containsMsg_append_mono this t
      · exact ih _ s hs

/-- Reconciling scraped messages that are all already present appends
nothing and reports no new seller messages. -/
theorem syncMessages_noop (scraped : List ScrapedMsg) (hist : List Message) (now : String)
    (h : ∀ s ∈ scraped, containsMsg hist s.role s.content = true) :
    syncMessages hist scraped now = (hist, []) := by
  induction scraped with
  | nil => rfl
  | cons a rest ih =>
    simp only [syncMessages, h a (List.mem_cons_self a rest), if_true]
    exact ih fun s hs => h s (List.mem_cons_of_mem a hs)

/- ============================================================
   C4
   ============================================================ -/

/-- Listing used for the concrete negotiation scenarios (the mock
listing of lowballer.py lines 670-675). -/
def c4Listing : Listing :=
  { title := "iPhone 14 Pro 256GB", price := 800,
    seller_name := "techseller88", listing_url := "https://carousell.sg/p/test-123" }

/-- A stored record whose counter disagrees with its transcript (the
store is a JSON file loaded as-is at startup). -/
def c4BadRecord : ChatRecord :=
  { listing := c4Listing, started_at := "t0", messages := [],
    current_round := 5, status := "active" }

/-- C4 counterexample: when the scrape returns no messages,
sync_conversation returns before recomputing current_round (lowballer.py
lines 557-558), so a stored record whose current_round is 5 over an
empty transcript survives the call unchanged, refuting the claim that
current_round equals the buyer-message count after every call. -/
theorem c4_counterexample :
    (sync_conversation c4Listing (some []) "t1" (some c4BadRecord)).fst = some c4BadRecord ∧
    c4BadRecord.current_round = 5 ∧
    countLowballer c4BadRecord.messages = 0 :=
  ⟨rfl, rfl, rfl⟩

/-- C4 amended: after every sync_conversation call that scrapes at least
one message, current_round equals the number of buyer-role (lowballer)
messages in the reconciled transcript, and a second call scraping the
same page messages appends nothing and leaves the record unchanged
(idempotence); a call with no page, or whose scrape is empty, leaves an
existing record entirely unchanged instead of recomputing the round. -/
theorem c4_amended (listing_data : Listing) (now now2 : String)
    (stored : Option ChatRecord) (r : ChatRecord) (a : ScrapedMsg)
    (rest : List ScrapedMsg) :
    (∃ rec1 : ChatRecord,
      (sync_conversation listing_data (some (a :: rest)) now stored).fst = some rec1 ∧
      rec1.current_round = countLowballer rec1.messages ∧
      sync_conversation listing_data (some (a :: rest)) now2 (some rec1) = (some rec1, [])) ∧
    sync_conversation listing_data none now (some r) = (some r, []) ∧
    sync_conversation listing_data (some []) now (some r) = (some r, []) := by
  refine ⟨?_, rfl, rfl⟩
  set rec0 := (stored.getD (mk_new_record listing_data now)) with hrec0
  set synced := syncMessages rec0.messages (a :: rest) now with hsynced
  refine ⟨{ rec0 with messages := synced.fst, current_round := countLowballer synced.fst },
    rfl, rfl, ?_⟩
  have hcov := syncMessages_covers (a :: rest) rec0.messages now
  have hnoop : syncMessages synced.fst (a :: rest) now2 = (synced.fst, []) :=
    syncMessages_noop _ _ _ fun s hs => hcov s hs
  show sync_conversation listing_data (some (a :: rest)) now2 _ = _
  simp only [sync_conversation, Option.getD_some, List.isEmpty_cons, hnoop]
  rfl

end Cheapskate

namespace Cheapskate

/- ============================================================
   C1 — the round budget is never enforced
   ============================================================ -/

/-- A conversation that has already used the whole round budget: five
buyer messages, current_round = 5 = max_negotiation_rounds. -/
def c1Record : ChatRecord :=
  { listing := c4Listing, started_at := "t0",
    messages :=
      [ { role := "lowballer", content := "offer 1", timestamp := "t0", meta := .offerMsg (some 517) 1 true },
        { role := "lowballer", content := "offer 2", timestamp := "t0", meta := .offerMsg (some 682) 2 true },
        { role := "lowballer", content := "offer 3", timestamp := "t0", meta := .offerMsg (some 758) 3 true },
        { role := "lowballer", content := "offer 4", timestamp := "t0", meta := .offerMsg (some 803) 4 true },
        { role := "lowballer", content := "offer 5", timestamp := "t0", meta := .offerMsg (some 798) 5 true } ],
    current_round := 5, status := "active" }

/-- Environment for the budget-exhausted call: the page scrape is empty,
the provider generates a message, the jitter drawn is +2, the send
succeeds. -/
def c1Env : NegotiateEnv :=
  { page := some [], analysisResponse := none,
    genResponse := some { content := "Would you take $802?" },
    fallbackChoice := 0, offset := 2, sendOk := true, now := "t1" }

/-- The record produced by the budget-exhausted call: a sixth buyer
message is appended and the round counter reaches 6. -/
def c1Result : ChatRecord :=
  { c1Record with
    messages := c1Record.messages ++
      [{ role := "lowballer", content := "Would you take $802?", timestamp := "t1",
         meta := .offerMsg (some (calculate_offer 800 4 2)) 6 true }]
    current_round := 6 }

/-- C1: negotiate() has no walk-away check — max_rounds is assigned in
LowballerAgent.__init__ but never read.  On a record whose round count
already equals the configured budget of 5, the call computes a round-6
offer (tier capped at 100 percent), appends a sixth buyer message, and
leaves the status "active"; it never sets walked_away (that status is
assigned nowhere in the repository). -/
theorem c1_no_walkaway :
    c1Record.current_round = max_negotiation_rounds ∧
    negotiate c4Listing c1Env none (some c1Record) =
      .ok ("LOWBALLER: Sent message for iPhone 14 Pro 256GB (Round 6)", c1Result) ∧
    c1Result.status = "active" ∧
    c1Result.current_round = 6 ∧
    c1Result.messages.length = c1Record.messages.length + 1 ∧
    calculate_offer 800 4 2 = 802 := by
  refine ⟨rfl, rfl, rfl, rfl, rfl, ?_⟩
  show max (pyInt ((800 : ℚ) * ((ackermanPercent 4 : ℚ) / 100)) + 2) 1 = 802
  have e1 : ((800 : ℚ) * ((ackermanPercent 4 : ℚ) / 100)) = 800 := by
    norm_num [ackermanPercent]
  rw [e1, pyInt_eq_floor _ (by norm_num)]
  norm_num

/- ============================================================
   C2 — acceptance is re-detected, not stored-state-enforced
   ============================================================ -/

/-- A record already marked accepted, with the seller's acceptance as
the last seller message. -/
def c2AcceptedRecord : ChatRecord :=
  { listing := c4Listing, started_at := "t0",
    messages :=
      [ { role := "lowballer", content := "Can do $520?", timestamp := "t0",
          meta := .offerMsg (some 520) 1 true },
        { role := "seller", content := "ok deal, come collect", timestamp := "t0",
          meta := .synced } ],
    current_round := 1, status := "accepted" }

/-- Environment for the post-acceptance call: empty scrape, provider
outage during classification (defaults to COUNTER), generation
succeeds, jitter +2, send succeeds. -/
def c2Env : NegotiateEnv :=
  { page := some [], analysisResponse := none,
    genResponse := some { content := "Deal then - $682 cash now?" },
    fallbackChoice := 0, offset := 2, sendOk := true, now := "t2" }

/-- Record produced by the post-acceptance call: a second buyer offer is
appended and currentRound incremented even though status = accepted. -/
def c2Result : ChatRecord :=
  { c2AcceptedRecord with
    messages := c2AcceptedRecord.messages ++
      [{ role := "lowballer", content := "Deal then - $682 cash now?", timestamp := "t2",
         meta := .offerMsg (some (calculate_offer 800 2 2)) 2 true }]
    current_round := 2 }

/-- C2 counterexample: negotiate() never consults the stored status.  On
a record with status = accepted, a call whose classification defaults
to COUNTER (provider outage) generates a further offer, appends a buyer
message, and increments currentRound — refuting the claim that
acceptance is a terminal state. -/
theorem c2_counterexample :
    c2AcceptedRecord.status = "accepted" ∧
    negotiate c4Listing c2Env none (some c2AcceptedRecord) =
      .ok ("LOWBALLER: Sent message for iPhone 14 Pro 256GB (Round 2)", c2Result) ∧
    c2Result.current_round = c2AcceptedRecord.current_round + 1 ∧
    c2Result.messages.length = c2AcceptedRecord.messages.length + 1 :=
  ⟨rfl, rfl, rfl, rfl⟩

/-- C2 amended: acceptance is re-detected per call rather than enforced
from the stored status.  Whenever the record has at least one seller
message and the classifier labels the latest one ACCEPT, negotiate()
returns the accepted status without generating an offer, appending a
buyer message, or incrementing currentRound; terminality holds only as
long as classification keeps returning ACCEPT. -/
theorem c2_amended (listing_data : Listing) (env : NegotiateEnv) (r : ChatRecord)
    (hpage : env.page = some [])
    (hsell : (r.messages.filter (fun m => m.role == "seller")).isEmpty = false)
    (hacc : analyze_seller_response env.analysisResponse = "ACCEPT") :
    negotiate listing_data env none (some r) =
      .ok ("LOWBALLER: 🎉 DEAL ACCEPTED! Seller agreed. Confirmation sent.",
        { r with status := "accepted" }) := by
  unfold negotiate
  rw [hpage]
  show (if !(r.messages.filter (fun m => m.role == "seller")).isEmpty &&
        analyze_seller_response env.analysisResponse == "ACCEPT" then _ else _) = _
  rw [hsell, hacc]
  rfl

/-- C2 amended, witness: the accepted record re-classified as ACCEPT. -/
def c2WitnessEnv : NegotiateEnv :=
  { page := some [], analysisResponse := some "ACCEPT",
    genResponse := none, fallbackChoice := 0, offset := 2, sendOk := true, now := "t3" }

/-- Witness for the amended C2 at the concrete accepted record. -/
theorem c2_amended_witness :
    negotiate c4Listing c2WitnessEnv none (some c2AcceptedRecord) =
      .ok ("LOWBALLER: 🎉 DEAL ACCEPTED! Seller agreed. Confirmation sent.",
        { c2AcceptedRecord with status := "accepted" }) :=
  c2_amended c4Listing c2WitnessEnv c2AcceptedRecord rfl rfl rfl

/- ============================================================
   C10 — KeyError on a None page with no existing record
   ============================================================ -/

/-- C10: with page = None, sync_conversation returns before creating the
record (lowballer.py lines 515-516), and negotiate() then indexes
self.chat_history[seller_id] unconditionally (line 225), so a seller
with no existing conversation record raises a KeyError rather than
returning a status string. -/
theorem c10_keyerror_on_none_page (listing_data : Listing) (env : NegotiateEnv)
    (hpage : env.page = none) :
    (sync_conversation listing_data env.page env.now none).fst = none ∧
    negotiate listing_data env none none =
      .error ("KeyError: " ++ get_seller_id listing_data) := by
  constructor
  · rw [hpage]
    rfl
  · unfold negotiate
    rw [hpage]
    rfl

/-- Environment with no page at all (negotiate called without a chat
window). -/
def c10Env : NegotiateEnv :=
  { page := none, analysisResponse := none, genResponse := none,
    fallbackChoice := 0, offset := 2, sendOk := false, now := "t0" }

/-- Witness for C10 at the concrete mock listing. -/
theorem c10_keyerror_witness :
    (sync_conversation c4Listing c10Env.page c10Env.now none).fst = none ∧
    negotiate c4Listing c10Env none none =
      .error ("KeyError: " ++ get_seller_id c4Listing) :=
  c10_keyerror_on_none_page c4Listing c10Env rfl

end Cheapskate

namespace Cheapskate

/- ============================================================
   C5 — invalid listing index handling
   ============================================================ -/

/-- C5: with a non-empty listings cache and an index outside [0, len),
the open_listing, open_chat and delegate_lowball handlers each return
the descriptive error string naming the valid range 0..len-1, raise
nothing, and leave the current listings unchanged. -/
theorem c5_invalid_index (current_listings : List Listing) (listing_index : ℤ)
    (navOk pageReady chatClicked chatOpened : Bool) (descr : String)
    (env : NegotiateEnv) (stored : Option ChatRecord)
    (hne : current_listings ≠ [])
    (hidx : listing_index < 0 ∨ (current_listings.length : ℤ) ≤ listing_index) :
    handle_open_listing current_listings listing_index navOk =
      ("Invalid listing index. Valid range: 0-" ++ toString (current_listings.length - 1),
        current_listings) ∧
    handle_open_chat current_listings listing_index pageReady chatClicked =
      ("Invalid listing index. Valid range: 0-" ++ toString (current_listings.length - 1),
        current_listings) ∧
    handle_delegate_lowball current_listings listing_index pageReady navOk chatOpened
        descr env stored =
      .ok ("Invalid listing index. Valid range: 0-" ++ toString (current_listings.length - 1),
        current_listings) := by
  have hempty : current_listings.isEmpty = false := by
    cases current_listings with
    | nil => exact absurd rfl hne
    | cons a l => rfl
  have hcond : (decide (listing_index < 0) ||
      decide ((current_listings.length : ℤ) ≤ listing_index)) = true := by
    rcases hidx with h | h <;> simp [h]
  refine ⟨?_, ?_, ?_⟩ <;>
    simp only [handle_open_listing, handle_open_chat, handle_delegate_lowball,
      hempty, hcond, Bool.false_eq_true, if_false, if_true]

/-- Witness for C5: index -1 against the five mock listings. -/
theorem c5_invalid_index_witness :
    handle_open_listing mockListings (-1) true =
      ("Invalid listing index. Valid range: 0-" ++ toString (mockListings.length - 1),
        mockListings) ∧
    handle_open_chat mockListings (-1) true true =
      ("Invalid listing index. Valid range: 0-" ++ toString (mockListings.length - 1),
        mockListings) ∧
    handle_delegate_lowball mockListings (-1) true true true "" c10Env none =
      .ok ("Invalid listing index. Valid range: 0-" ++ toString (mockListings.length - 1),
        mockListings) :=
  c5_invalid_index mockListings (-1) true true true true "" c10Env none
    (by decide) (Or.inl (by decide))

/- ============================================================
   C6 — provider failure recovery
   ============================================================ -/

/-- A string that ends in a nonempty literal is nonempty. -/
theorem append_right_ne_empty (a b : String) (hb : b.data ≠ []) : a ++ b ≠ "" := by
  intro h
  apply hb
  have h2 : (a ++ b).data = ("" : String).data := by rw [h]
  rw [String.data_append] at h2
  exact (List.append_eq_nil.mp h2).2

/-- Every round pool holds exactly three templates. -/
theorem fallbackPool_length (item_name offerStr : String) (r : ℕ) :
    (fallbackPool item_name offerStr r).length = 3 := by
  rcases r with _ | _ | _ | _ | _ | r <;> rfl

/-- Every template in every pool mentions the printed offer price and is
nonempty. -/
theorem fallbackPool_param (item_name offerStr : String) (r : ℕ) :
    ∀ msg ∈ fallbackPool item_name offerStr r,
      (∃ pre post : String, msg = pre ++ offerStr ++ post) ∧ msg ≠ "" := by
  rcases r with _ | _ | _ | _ | _ | r <;>
  · intro msg hm
    simp only [fallbackPool, List.mem_cons, List.not_mem_nil, or_false] at hm
    rcases hm with rfl | rfl | rfl <;>
      exact ⟨⟨_, _, rfl⟩, append_right_ne_empty _ _ (by decide)⟩

/-- The pseudo-random draw always lands inside the round's pool. -/
theorem get_fallback_message_mem (item_name : String) (offer_price : Option ℤ)
    (round_num choice : ℕ) :
    get_fallback_message item_name offer_price round_num choice ∈
      fallbackPool item_name (offerToStr offer_price) round_num := by
  unfold get_fallback_message
  have hlen := fallbackPool_length item_name (offerToStr offer_price) round_num
  have hlt : choice % (fallbackPool item_name (offerToStr offer_price) round_num).length <
      (fallbackPool item_name (offerToStr offer_price) round_num).length := by
    rw [hlen]
    exact Nat.mod_lt _ (by norm_num)
  rw [List.getD_eq_getElem _ _ hlt]
  exact List.getElem_mem hlt

/-- C6: when the completion provider raises or returns empty output,
negotiate() recovers locally — seller-reply classification returns the
default COUNTER, and message generation falls back to the round-keyed
template pool: a pure function of item name, offer price and the random
draw (no network call), always producing a nonempty message that
mentions the printed offer price. -/
theorem c6_provider_failure_fallback (item_name : String) (offer : ℤ)
    (round_num choice : ℕ) :
    analyze_seller_response none = "COUNTER" ∧
    analyze_seller_response (some "") = "COUNTER" ∧
    generate_message none item_name (some offer) round_num choice =
      get_fallback_message item_name (some offer) round_num choice ∧
    generate_message (some { content := "", error := false }) item_name (some offer)
        round_num choice =
      get_fallback_message item_name (some offer) round_num choice ∧
    get_fallback_message item_name (some offer) round_num choice ∈
      fallbackPool item_name (offerToStr (some offer)) round_num ∧
    (∃ pre post : String, get_fallback_message item_name (some offer) round_num choice =
      pre ++ toString offer ++ post) ∧
    get_fallback_message item_name (some offer) round_num choice ≠ "" := by
  have hmem := get_fallback_message_mem item_name (some offer) round_num choice
  have hparam := fallbackPool_param item_name (offerToStr (some offer)) round_num _ hmem
  exact ⟨rfl, by decide, rfl, rfl, hmem, hparam.1, hparam.2⟩

end Cheapskate

namespace Cheapskate

/- ============================================================
   C7 — sequential batch execution with per-handler catch
   ============================================================ -/

/-- The dispatcher produces exactly one outcome line per tool call. -/
theorem execute_tool_calls_length {σ : Type u} (tool_calls : List ToolCall)
    (handlers : String → Option (String → σ → HandlerOutcome σ)) (s : σ) :
    (execute_tool_calls tool_calls handlers s).fst.length = tool_calls.length := by
  induction tool_calls generalizing s with
  | nil => rfl
  | cons tc rest ih => simp [execute_tool_calls, ih]

/-- C7: the dispatcher executes the batch sequentially in the given
order; a handler that raises in the middle contributes the rendered
failure line at its position, the calls before it keep their outcome
lines, and every call after it is still executed, starting from the
state the raising handler left behind — so the batch always yields one
line per call. -/
theorem c7_batch_isolation {σ : Type u} (pre post : List ToolCall) (tc : ToolCall)
    (handlers : String → Option (String → σ → HandlerOutcome σ)) (s0 : σ)
    (h : String → σ → HandlerOutcome σ) (e : String) (s1 : σ)
    (hh : handlers tc.name = some h)
    (hr : h tc.arguments (execute_tool_calls pre handlers s0).snd = .raise e s1) :
    execute_tool_calls (pre ++ tc :: post) handlers s0 =
      ((execute_tool_calls pre handlers s0).fst ++
        ("✗ " ++ tc.name ++ ": Error - " ++ e) ::
          (execute_tool_calls post handlers s1).fst,
        (execute_tool_calls post handlers s1).snd) ∧
    (execute_tool_calls (pre ++ tc :: post) handlers s0).fst.length =
      pre.length + 1 + post.length := by
  have main : ∀ (pre : List ToolCall) (s0 : σ),
      h tc.arguments (execute_tool_calls pre handlers s0).snd = .raise e s1 →
      execute_tool_calls (pre ++ tc :: post) handlers s0 =
        ((execute_tool_calls pre handlers s0).fst ++
          ("✗ " ++ tc.name ++ ": Error - " ++ e) ::
            (execute_tool_calls post handlers s1).fst,
          (execute_tool_calls post handlers s1).snd) := by
    intro pre
    induction pre with
    | nil =>
      intro s0 hr0
      have hr1 : h tc.arguments s0 = .raise e s1 := hr0
      have hstep : renderToolCall handlers tc s0 =
          (match h tc.arguments s0 with
            | .ok result s2 => ("✓ " ++ tc.name ++ ": " ++ result, s2)
            | .raise e2 s2 => ("✗ " ++ tc.name ++ ": Error - " ++ e2, s2)) := by
        unfold renderToolCall
        rw [hh]
      have hrend : renderToolCall handlers tc s0 =
          ("✗ " ++ tc.name ++ ": Error - " ++ e, s1) := by
        rw [hstep, hr1]
      show ((renderToolCall handlers tc s0).fst ::
          (execute_tool_calls post handlers (renderToolCall handlers tc s0).snd).fst,
          (execute_tool_calls post handlers (renderToolCall handlers tc s0).snd).snd) = _
      rw [hrend]
      rfl
    | cons a rest ih =>
      intro s0 hr0
      have hrec := ih (renderToolCall handlers a s0).snd hr0
      show ((renderToolCall handlers a s0).fst ::
          (execute_tool_calls (rest ++ tc :: post) handlers
            (renderToolCall handlers a s0).snd).fst,
          (execute_tool_calls (rest ++ tc :: post) handlers
            (renderToolCall handlers a s0).snd).snd) = _
      rw [hrec]
      rfl
  refine ⟨main pre s0 hr, ?_⟩
  rw [main pre s0 hr]
  simp [execute_tool_calls_length, List.length_append]
  omega

/-- Concrete handler table for the C7 witness: a search handler that
mutates the state, a raising open_listing handler, and a screenshot
handler. -/
def c7Handlers : String → Option (String → ℕ → HandlerOutcome ℕ)
  | "search_carousell" => some (fun _ s => .ok "Found 3 listings" (s + 1))
  | "open_listing" => some (fun _ s => .raise "listing index out of range" s)
  | "take_screenshot" => some (fun _ s => .ok "Saved screenshot" s)
  | _ => none

/-- Witness for C7: a four-call batch whose second call raises; the
failure is rendered in place and the remaining calls (including an
unknown tool) still run. -/
theorem c7_batch_isolation_witness :
    execute_tool_calls
        [⟨"search_carousell", "laptop"⟩, ⟨"open_listing", "7"⟩,
          ⟨"take_screenshot", ""⟩, ⟨"bogus_tool", ""⟩] c7Handlers 0 =
      ((execute_tool_calls [⟨"search_carousell", "laptop"⟩] c7Handlers 0).fst ++
        ("✗ " ++ "open_listing" ++ ": Error - " ++ "listing index out of range") ::
          (execute_tool_calls [⟨"take_screenshot", ""⟩, ⟨"bogus_tool", ""⟩] c7Handlers 1).fst,
        (execute_tool_calls [⟨"take_screenshot", ""⟩, ⟨"bogus_tool", ""⟩] c7Handlers 1).snd) ∧
    (execute_tool_calls
        [⟨"search_carousell", "laptop"⟩, ⟨"open_listing", "7"⟩,
          ⟨"take_screenshot", ""⟩, ⟨"bogus_tool", ""⟩] c7Handlers 0).fst.length =
      [(⟨"search_carousell", "laptop"⟩ : ToolCall)].length + 1 +
        [(⟨"take_screenshot", ""⟩ : ToolCall), ⟨"bogus_tool", ""⟩].length :=
  c7_batch_isolation [⟨"search_carousell", "laptop"⟩]
    [⟨"take_screenshot", ""⟩, ⟨"bogus_tool", ""⟩] ⟨"open_listing", "7"⟩
    c7Handlers 0 (fun _ s => .raise "listing index out of range" s)
    "listing index out of range" 1 rfl rfl

end Cheapskate

namespace Cheapskate

/-- Witness for the amended C3 at listing price 800, round 1, jitter
offsets +8 and -7. -/
theorem c3_amended_witness :
    1 ≤ calculate_offer 800 1 8 ∧
    calculate_offer 800 1 8 ≤ ⌊(800 : ℚ)⌋ + 8 ∧
    (320 ≤ (800 : ℚ) → 1 ≤ 1 → 1 ≤ 3 →
      calculate_offer 800 1 8 ≤ calculate_offer 800 (1 + 1) (-7)) ∧
    (5 ≤ 1 → calculate_offer 800 1 8 = calculate_offer 800 4 8) :=
  c3_amended 800 (by norm_num) 1 8 (-7) (by decide) (by decide)

end Cheapskate
